import Mathlib

/-!
Verification of the place-ranking analysis service against its design
specification.  The repository's shipped code is the Next.js frontend
(`src/frontend/src/components/layout/ClientLayout.tsx` holds the API client
and response-type declarations; `src/unnamed/part_000..002` are the pages).
The calibration / correlation / simulation backend described by the spec is
not shipped in `src/`; where a property is decided by that backend, the
corresponding operation is modelled from the spec (each such definition's
doc comment starts with `Modelled from the spec:`).  TypeScript `number` is
embedded as `ℚ`, `number | null` and optional fields as `Option`.
-/

namespace Place

/-! ## Frontend data shapes (from ClientLayout.tsx) -/

/-- TS interface `DailyData` (ClientLayout.tsx:592): a tracked day's data;
`rank : number | null`. -/
structure DailyData where
  date : String
  rank : Option ℚ
  visitor_review_count : ℚ
  blog_review_count : ℚ
  place_score : Option ℚ
  deriving Repr, DecidableEq

/-- TS interface `SavedKeyword` (ClientLayout.tsx:600); fields not used by
any claim (`last_rank`, `best_rank`, review counts, `is_active`,
`created_at`) are carried verbatim. -/
structure SavedKeyword where
  id : ℚ
  place_id : String
  place_name : Option String
  keyword : String
  last_rank : Option ℚ
  best_rank : Option ℚ
  visitor_review_count : ℚ
  blog_review_count : ℚ
  place_score : Option ℚ
  weekly_data : List DailyData
  is_active : Bool
  created_at : String
  deriving Repr, DecidableEq

/-- `getRankChange` of part_001 (lines 118–124), also the body of the
part_000 version after its `weekly_data` null/length guard:
take the last (`today`) and second-to-last (`yesterday`) entries; if either
rank is falsy (`null` or `0` — JS truthiness) return `null`; otherwise
return `yesterday.rank - today.rank`. -/
def getRankChange (weeklyData : List DailyData) : Option ℚ :=
  if weeklyData.length < 2 then none
  else
    match weeklyData.get? (weeklyData.length - 1),
          weeklyData.get? (weeklyData.length - 2) with
    | some today, some yesterday =>
      match today.rank, yesterday.rank with
      | some tr, some yr => if tr = 0 ∨ yr = 0 then none else some (yr - tr)
      | some _, none => none
      | none, _ => none
    | _, _ => none

/-- `getRankChange` of part_000 (lines 372–378), taking the whole
`SavedKeyword`; its guard `!keyword.weekly_data || keyword.weekly_data.length < 2`
is the `length < 2` test of the list version (a missing array has no
length ≥ 2). -/
def getRankChangeKeyword (k : SavedKeyword) : Option ℚ :=
  getRankChange k.weekly_data

/-- TS interface `SearchResult` (part_002:9). -/
structure SearchResult where
  place_id : String
  name : String
  category : String
  deriving Repr, DecidableEq

/-- TS interface `AnalyzePlace` (ClientLayout.tsx:1065), restricted to the
fields the analyzed page reads (`place_id`, `name`, `rank`); the nested
display-only `scores`/`metrics`/`changes` records are not consulted by any
claimed behavior. -/
structure AnalyzePlace where
  place_id : String
  name : String
  rank : ℤ
  deriving Repr, DecidableEq

/-- TS interface `AnalyzeResponse` (ClientLayout.tsx:1088), restricted to
`keyword` and `my_place` (the fields the simulation and activity handlers
read). -/
structure AnalyzeResult where
  keyword : String
  my_place : Option AnalyzePlace
  deriving Repr, DecidableEq

/-- TS interface `TargetRankRequest` (ClientLayout.tsx:1116): the body of
`POST /v1/simulate/target-rank`. -/
structure TargetRankRequest where
  keyword : String
  place_name : String
  current_rank : ℤ
  target_rank : ℤ
  deriving Repr, DecidableEq

/-- `handleTargetRankSimulate` (part_002:355–383), as the API request it
issues: `none` when it returns early (missing place / analysis / empty
keyword / `targetRank >= currentRank`), otherwise the
`simulateTargetRank` request. -/
def handleTargetRankSimulate (selectedPlace : Option SearchResult)
    (analyzeResult : Option AnalyzeResult) (targetRank : ℤ) :
    Option TargetRankRequest :=
  match selectedPlace, analyzeResult with
  | some place, some ar =>
    if ar.keyword = "" then none
    else
      match ar.my_place with
      | none => none
      | some mp =>
        if mp.rank ≤ targetRank then none
        else some ⟨ar.keyword, place.name, mp.rank, targetRank⟩
  | _, _ => none

/-- TS interface `ActivityLogRequest` (ClientLayout.tsx:1289) as populated
by `handleActivityLog` (which always supplies `place_id`, `place_name` and
omits `activity_date`). -/
structure ActivityLogRequest where
  keyword : String
  place_id : String
  place_name : String
  blog_review_added : ℤ
  visit_review_added : ℤ
  save_added : ℤ
  inflow_added : ℤ
  deriving Repr, DecidableEq

/-- The activity-entry UI state read by `handleActivityLog`
(part_002: `activityBlogChecked`, `activityBlogCount`, …). -/
structure ActivityState where
  blogChecked : Bool
  blogCount : ℤ
  saveChecked : Bool
  saveCount : ℤ
  inflowChecked : Bool
  inflowCount : ℤ
  deriving Repr, DecidableEq

/-- `handleActivityLog` (part_002:392–435), as the API request it issues:
`none` when it returns early (missing place / analysis / empty keyword, or
`hasActivity` false), otherwise the `activityApi.log` request, in which an
unchecked feature contributes `0` and `visit_review_added` is the literal
`0` (commented in source as unused by the current UI). -/
def handleActivityLog (selectedPlace : Option SearchResult)
    (analyzeResult : Option AnalyzeResult) (st : ActivityState) :
    Option ActivityLogRequest :=
  match selectedPlace, analyzeResult with
  | some place, some ar =>
    if ar.keyword = "" then none
    else
      let hasActivity :=
        (st.blogChecked && decide (0 < st.blogCount)) ||
        (st.saveChecked && decide (0 < st.saveCount)) ||
        (st.inflowChecked && decide (0 < st.inflowCount))
      if hasActivity then
        some { keyword := ar.keyword
               place_id := place.place_id
               place_name := place.name
               blog_review_added := if st.blogChecked then st.blogCount else 0
               visit_review_added := 0
               save_added := if st.saveChecked then st.saveCount else 0
               inflow_added := if st.inflowChecked then st.inflowCount else 0 }
      else none
  | _, _ => none

/-- `RecentSearch` (part_000:11 / part_002 localStorage record). -/
structure RecentSearch where
  placeId : String
  placeName : String
  category : String
  keyword : String
  rank : Option ℚ
  searchedAt : String
  deriving Repr, DecidableEq

/-- The recent-searches localStorage update performed identically by
`autoRankSearch` (part_002:172–185) and `handleRankSearch`
(part_002:251–264): prepend the new record to the saved list with every
entry of the same `(placeId, keyword)` pair filtered out, then keep the
first 10. -/
def updateRecentSearches (s : RecentSearch) (saved : List RecentSearch) :
    List RecentSearch :=
  (s :: saved.filter
      (fun t => !(decide (t.placeId = s.placeId) && decide (t.keyword = s.keyword)))).take 10

/-! ## Spec-modelled backend: data model (spec §3) -/

/-- Modelled from the spec: `KeywordParameters.status` values (§3); the
backend Parameter Store is not shipped in `src/`. -/
inductive ParamStatus where
  | UNCALIBRATED
  | CALIBRATED
  | STALE
  | FIT_REJECTED
  deriving Repr, DecidableEq

/-- Modelled from the spec: `KeywordParameters` (§3); the backend Parameter
Store is not shipped in `src/`. -/
structure KeywordParameters where
  index1_constant : ℚ
  index2_slope : ℚ
  index2_intercept : ℚ
  sample_count : ℕ
  fit_quality : ℚ
  status : ParamStatus
  deriving Repr, DecidableEq

/-- Modelled from the spec: `GlobalIndex3Model` (§3), six polynomial
coefficients (bias, index1, index2, index1·index2, index1², index2²)
mapping (index1, index2) → index3. -/
structure GlobalIndex3Model where
  bias : ℚ
  c1 : ℚ
  c2 : ℚ
  c12 : ℚ
  c11 : ℚ
  c22 : ℚ
  deriving Repr, DecidableEq

/-- Evaluation of the global polynomial at (index1, index2). -/
def GlobalIndex3Model.eval (m : GlobalIndex3Model) (i1 i2 : ℚ) : ℚ :=
  m.bias + m.c1 * i1 + m.c2 * i2 + m.c12 * i1 * i2 + m.c11 * i1 ^ 2 + m.c22 * i2 ^ 2

/-- Modelled from the spec: an `Observation` row (§3) — the Observation Log
is not shipped in `src/`.  Only (rank, index1, index2) feed per-keyword
calibration; the remaining fields are carried for fidelity. -/
structure Observation where
  rank : ℕ
  index1 : ℚ
  index2 : ℚ
  index3 : ℚ
  blog_count : ℕ
  visit_count : ℕ
  save_count : ℕ
  deriving Repr, DecidableEq

/-! ## Spec-modelled backend: Calibrator (spec §4.2) -/

/-- Mean of a list of rationals (with Lean's `x / 0 = 0` convention on the
empty list). -/
def mean (l : List ℚ) : ℚ := l.sum / l.length

/-- Centered second moment `Σ (x − x̄)²`. -/
def sqDev (l : List ℚ) : ℚ := (l.map (fun x => (x - mean l) ^ 2)).sum

/-- Centered cross moment `Σ (x − x̄)(y − ȳ)`. -/
def crossDev (xs ys : List ℚ) : ℚ :=
  ((xs.zip ys).map (fun p => (p.1 - mean xs) * (p.2 - mean ys))).sum

/-- Ordinary-least-squares slope of `y = slope·x + intercept`. -/
def olsSlope (xs ys : List ℚ) : ℚ := crossDev xs ys / sqDev xs

/-- Ordinary-least-squares intercept. -/
def olsIntercept (xs ys : List ℚ) : ℚ := mean ys - olsSlope xs ys * mean xs

/-- Coefficient of determination of the simple linear fit,
`R² = Sxy² / (Sxx · Syy)`. -/
def fitQuality (xs ys : List ℚ) : ℚ := crossDev xs ys ^ 2 / (sqDev xs * sqDev ys)

/-- Rank column of an observation list. -/
def ranksOf (obs : List Observation) : List ℚ := obs.map (fun o => (o.rank : ℚ))

/-- index2 column of an observation list. -/
def i2sOf (obs : List Observation) : List ℚ := obs.map (fun o => o.index2)

/-- Modelled from the spec: the Parameter Store (§4.1) as a total map; a
keyword never calibrated reads as `UNCALIBRATED` with no coefficients. -/
def ParameterStore : Type := String → KeywordParameters

/-- The store before any calibration: every keyword `UNCALIBRATED`. -/
def initialStore : ParameterStore :=
  fun _ => { index1_constant := 0, index2_slope := 0, index2_intercept := 0,
             sample_count := 0, fit_quality := 0, status := .UNCALIBRATED }

/-- Parameter Store `put` (§4.1): replace a keyword's value wholesale. -/
def ParameterStore.put (s : ParameterStore) (kw : String)
    (p : KeywordParameters) : ParameterStore :=
  fun k => if k = kw then p else s k

/-- Modelled from the spec: the per-keyword calibration minimum-sample gate
(§4.2, "e.g. 5"). -/
def MIN_SAMPLES : ℕ := 5

/-- Modelled from the spec: the fit-quality floor below which a fit is
rejected (§4.2; the spec leaves the value implementation-defined). -/
def QUALITY_FLOOR : ℚ := 1 / 2

/-- Modelled from the spec: one per-keyword calibration attempt (§4.2),
absent from `src/`.  Below `MIN_SAMPLES` no fit is computed and the store
is unchanged; a fitted positive slope or a fit quality below the floor is
rejected with the previously stored parameters retained unchanged;
otherwise the keyword's parameters are replaced wholesale with the new
`CALIBRATED` version (`index1_constant` is the observed mean of index1). -/
def calibrateKeyword (store : ParameterStore) (kw : String)
    (obs : List Observation) : ParameterStore :=
  if obs.length < MIN_SAMPLES then store
  else if 0 < olsSlope (ranksOf obs) (i2sOf obs) ∨
      fitQuality (ranksOf obs) (i2sOf obs) < QUALITY_FLOOR then store
  else
    store.put kw
      { index1_constant := mean (obs.map (fun o => o.index1))
        index2_slope := olsSlope (ranksOf obs) (i2sOf obs)
        index2_intercept := olsIntercept (ranksOf obs) (i2sOf obs)
        sample_count := obs.length
        fit_quality := fitQuality (ranksOf obs) (i2sOf obs)
        status := .CALIBRATED }

/-- Modelled from the spec: the `CALIBRATED → STALE` transition of the
per-keyword state machine (§4.2); it only changes the status field. -/
def markStale (store : ParameterStore) (kw : String) : ParameterStore :=
  if (store kw).status = ParamStatus.CALIBRATED then
    store.put kw { store kw with status := .STALE }
  else store

/-- Parameter-store states reachable from the uncalibrated initial store by
calibration attempts and staleness transitions. -/
inductive Reachable : ParameterStore → Prop where
  | init : Reachable initialStore
  | calibrate (s : ParameterStore) (kw : String) (obs : List Observation) :
      Reachable s → Reachable (calibrateKeyword s kw obs)
  | stale (s : ParameterStore) (kw : String) :
      Reachable s → Reachable (markStale s kw)

/-! ## Spec-modelled backend: Simulator (spec §4.5) over the shipped
response shapes (ClientLayout.tsx) -/

/-- Simulation errors of the spec's error design (§7). -/
inductive SimError where
  | InvalidTarget
  deriving Repr, DecidableEq

/-- TS interface `TargetRankScoreChange` (ClientLayout.tsx:1110). -/
structure TargetRankScoreChange where
  current : ℚ
  target : ℚ
  change : ℚ
  deriving Repr, DecidableEq

/-- TS interface `TargetRankResponse` (ClientLayout.tsx:1122–1132): the
repository's declared inverse-simulation response. -/
structure TargetRankResponse where
  keyword : String
  place_name : String
  current_rank : ℤ
  target_rank : ℤ
  n2_change : TargetRankScoreChange
  n3_change : TargetRankScoreChange
  message : String
  is_achievable : Bool
  data_source : String
  deriving Repr, DecidableEq

/-- The field names of the TS interface `TargetRankResponse`
(ClientLayout.tsx:1122–1132); every field is required (none is marked
optional). -/
def targetRankResponseFieldNames : List String :=
  ["keyword", "place_name", "current_rank", "target_rank",
   "n2_change", "n3_change", "message", "is_achievable", "data_source"]

/-- Modelled from the spec: the human-readable summary string of the
inverse simulation, "built from the numeric deltas (never hand-authored
per case)" (§4.5). -/
def mkSummary (d2 d3 : ℚ) (achievable : Bool) : String :=
  "required index2 change " ++ toString d2 ++
    ", expected index3 change " ++ toString d3 ++
    (if achievable then " - within observed range" else " - outside observed range")

/-- Modelled from the spec: the backend inverse (target-rank) simulation
(§4.5), absent from `src/`, producing the repository's declared
`TargetRankResponse`.  A target rank ≥ current rank or < 1 is rejected as
`InvalidTarget` before any computation; otherwise
`required_index2 = intercept + slope · target_rank`, the index3 movement is
the global polynomial at the required index2 minus its value at the current
index2, and the target is achievable iff the required index2 lies within
the keyword's ever-observed index2 range `[obsLo, obsHi]`. -/
def inverseSimulate (kp : KeywordParameters) (g : GlobalIndex3Model)
    (obsLo obsHi : ℚ) (current_index1 current_index2 : ℚ)
    (req : TargetRankRequest) : Except SimError TargetRankResponse :=
  if req.current_rank ≤ req.target_rank ∨ req.target_rank < 1 then
    .error .InvalidTarget
  else
    let required := kp.index2_intercept + kp.index2_slope * (req.target_rank : ℚ)
    let d2 := required - current_index2
    let cur3 := g.eval current_index1 current_index2
    let tgt3 := g.eval current_index1 required
    let achievable := decide (obsLo ≤ required ∧ required ≤ obsHi)
    .ok { keyword := req.keyword
          place_name := req.place_name
          current_rank := req.current_rank
          target_rank := req.target_rank
          n2_change := ⟨current_index2, required, d2⟩
          n3_change := ⟨cur3, tgt3, tgt3 - cur3⟩
          message := mkSummary d2 (tgt3 - cur3) achievable
          is_achievable := achievable
          data_source := "cache" }

/-- The three candidate activity features of the forward simulation UI
(TS `SimulateInputs`, ClientLayout.tsx:1102). -/
inductive Feature where
  | inflow
  | blog_review
  | visit_review
  deriving Repr, DecidableEq

/-- The features in the order the TS `SimulateInputs` object and the
`effects` response object declare them. -/
def featureList : List Feature := [.inflow, .blog_review, .visit_review]

/-- Modelled from the spec: a `FeatureSignificance` row (§3) — the
feature-significance table written by the Correlation Analyzer is not
shipped in `src/`.  `p_value` is nullable there ("p_value = null" below the
sample gate). -/
structure FeatureSignificance where
  correlation : ℚ
  p_value : Option ℚ
  is_significant : Bool
  coefficient : ℚ
  sample_size : ℕ
  deriving Repr, DecidableEq

/-- TS interface `SimulateEffect` (ClientLayout.tsx:1134). -/
structure SimulateEffect where
  amount : ℚ
  effect : ℚ
  deriving Repr, DecidableEq

/-- TS interface `SimulateResponse` (ClientLayout.tsx:1139–1154): the
repository's declared forward-simulation response.  `effects` carries one
optional entry per feature; `current_n3`, `predicted_n3`, `n3_change` are
optional. -/
structure SimulateResponse where
  current_score : ℚ
  current_rank : ℤ
  effects : Feature → Option SimulateEffect
  total_effect : ℚ
  predicted_score : ℚ
  predicted_rank : ℤ
  current_n3 : Option ℚ
  predicted_n3 : Option ℚ
  n3_change : Option ℚ

/-- The required (non-optional) field names of the TS interface
`SimulateResponse` (ClientLayout.tsx:1139–1154). -/
def simulateResponseRequiredFields : List String :=
  ["current_score", "current_rank", "effects", "total_effect",
   "predicted_score", "predicted_rank"]

/-- The optional field names of the TS interface `SimulateResponse`
(ClientLayout.tsx:1139–1154). -/
def simulateResponseOptionalFields : List String :=
  ["current_n3", "predicted_n3", "n3_change"]

/-- Modelled from the spec: the re-ranking of a predicted index3 against
the other entities' last-known index3 values, "descending order; ties
broken by the existing stable rank order" (§4.5): the predicted rank is one
plus the number of other entities that either strictly beat the predicted
index3, or tie it while already standing ahead in the stable order. -/
def rerank (predicted3 : ℚ) (myRank : ℤ) (others : List (ℤ × ℚ)) : ℤ :=
  1 + (others.filter
        (fun o => decide (predicted3 < o.2) ||
          (decide (o.2 = predicted3) && decide (o.1 < myRank)))).length

/-- Modelled from the spec: the backend forward simulation (§4.5), absent
from `src/`, producing the repository's declared `SimulateResponse`.  Each
feature that is significant in the feature-significance table contributes
`delta · coefficient`; the contributions sum to the total predicted index2
movement; non-significant features are excluded entirely.  The optional N3
fields carry the global polynomial at the current and predicted index2. -/
def forwardSimulate (sig : Feature → FeatureSignificance)
    (deltas : Feature → ℚ) (current_n2 : ℚ) (current_rank : ℤ)
    (g : GlobalIndex3Model) (i1 : ℚ) (others : List (ℤ × ℚ)) :
    SimulateResponse :=
  let effOf : Feature → Option SimulateEffect := fun f =>
    if (sig f).is_significant then
      some ⟨deltas f, deltas f * (sig f).coefficient⟩
    else none
  let total :=
    ((featureList.filter (fun f => (sig f).is_significant)).map
      (fun f => deltas f * (sig f).coefficient)).sum
  let predicted_n2 := current_n2 + total
  let cur3 := g.eval i1 current_n2
  let pred3 := g.eval i1 predicted_n2
  { current_score := current_n2
    current_rank := current_rank
    effects := effOf
    total_effect := total
    predicted_score := predicted_n2
    predicted_rank := rerank pred3 current_rank others
    current_n3 := some cur3
    predicted_n3 := some pred3
    n3_change := some (pred3 - cur3) }

/-! ## Correlation analysis (spec §4.4) and the shipped result type -/

/-- A fragment of TypeScript types, enough to record whether a declared
field admits `null`. -/
inductive TsType where
  | number
  | string
  | boolean
  | nullable (t : TsType)
  deriving Repr, DecidableEq

/-- The declared field types of the TS interface `CorrelationResult`
(ClientLayout.tsx:1225–1232); note `p_value : number`, with no `null` in
its type. -/
def correlationResultFieldTypes : List (String × TsType) :=
  [("variable1", .string), ("variable2", .string), ("correlation", .number),
   ("p_value", .number), ("is_significant", .boolean), ("sample_size", .number)]

/-- Declared type of a `CorrelationResult` field, by name. -/
def correlationResultTypeOf (n : String) : Option TsType :=
  (correlationResultFieldTypes.find? (fun p => p.1 == n)).map (fun p => p.2)

/-- Modelled from the spec: the correlation minimum-sample gate
`MIN_CORR_SAMPLES` (§4.4, "e.g. 30"). -/
def MIN_CORR_SAMPLES : ℕ := 30

/-- Modelled from the spec: the Correlation Analyzer's per-feature
analysis (§4.4), absent from `src/`.  The Pearson correlation `r`, the
two-sided p-value `p` and the fitted sensitivity `coef` of the paired
samples are inputs (the spec delegates them to a statistics library, and
they are irrational in general); the analyzer's own logic is the gate:
below `MIN_CORR_SAMPLES` paired samples the feature is marked not
significant with a null p-value regardless of `r`, otherwise
`is_significant = (p < 0.05)`. -/
def analyzeFeature (sample_size : ℕ) (r p coef : ℚ) : FeatureSignificance :=
  if sample_size < MIN_CORR_SAMPLES then
    { correlation := r, p_value := none, is_significant := false,
      coefficient := coef, sample_size := sample_size }
  else
    { correlation := r, p_value := some p,
      is_significant := decide (p < 1 / 20),
      coefficient := coef, sample_size := sample_size }

/-! ## Activity log resolution (spec §3, §5) over the shipped entry shape -/

/-- TS interface `ActivityHistoryItem` (ClientLayout.tsx:1316–1334): a
stored activity-log entry with its optional baseline and D+1/D+7
resolution snapshots. -/
structure ActivityLogEntry where
  id : ℤ
  keyword : String
  place_name : Option String
  activity_date : String
  blog_review_added : ℤ
  visit_review_added : ℤ
  save_added : ℤ
  inflow_added : ℤ
  rank_before : Option ℤ
  n3_before : Option ℚ
  rank_after_1d : Option ℤ
  n3_after_1d : Option ℚ
  rank_after_7d : Option ℤ
  n3_after_7d : Option ℚ
  rank_change_1d : Option ℤ
  rank_change_7d : Option ℤ
  created_at : String
  deriving Repr, DecidableEq

/-- The two resolution lag windows (D+1 and D+7). -/
inductive Lag where
  | d1
  | d7
  deriving Repr, DecidableEq

/-- Modelled from the spec: the deferred batch resolution step behind
`POST /v1/activity/update-results` (ClientLayout.tsx:1390–1395), absent
from `src/`.  Resolving an entry for a lag window first checks whether the
corresponding resolution field is already populated; if so the entry is
left unchanged, otherwise the lag's snapshot fields are written once
(including the rank change relative to the baseline). -/
def resolveLag (e : ActivityLogEntry) (lag : Lag) (rank : ℤ) (n3 : ℚ) :
    ActivityLogEntry :=
  match lag with
  | .d1 =>
    if e.rank_after_1d.isSome then e
    else { e with rank_after_1d := some rank
                  n3_after_1d := some n3
                  rank_change_1d := e.rank_before.map (fun rb => rb - rank) }
  | .d7 =>
    if e.rank_after_7d.isSome then e
    else { e with rank_after_7d := some rank
                  n3_after_7d := some n3
                  rank_change_7d := e.rank_before.map (fun rb => rb - rank) }

/-! ## Concrete data used by the witnesses -/

/-- Five observations with index2 exactly linear and decreasing in rank
(slope −1/100, perfect fit): an accepted calibration input. -/
def obsGood : List Observation :=
  [⟨1, 37/100, 59/100, 1, 0, 0, 0⟩, ⟨2, 37/100, 58/100, 1, 0, 0, 0⟩,
   ⟨3, 37/100, 57/100, 1, 0, 0, 0⟩, ⟨4, 37/100, 56/100, 1, 0, 0, 0⟩,
   ⟨5, 37/100, 55/100, 1, 0, 0, 0⟩]

/-- Five observations with index2 increasing in rank (fitted slope
+1/100, physically implausible): a rejected calibration input. -/
def obsBad : List Observation :=
  [⟨1, 37/100, 51/100, 1, 0, 0, 0⟩, ⟨2, 37/100, 52/100, 1, 0, 0, 0⟩,
   ⟨3, 37/100, 53/100, 1, 0, 0, 0⟩, ⟨4, 37/100, 54/100, 1, 0, 0, 0⟩,
   ⟨5, 37/100, 55/100, 1, 0, 0, 0⟩]

/-- A concrete global index3 model (index3 = index2). -/
def gW : GlobalIndex3Model := ⟨0, 0, 1, 0, 0, 0⟩

/-- A concrete selected place. -/
def placeW : SearchResult := ⟨"p123", "cafe", "cafe"⟩

/-- A concrete analysis result with the entity at rank 5. -/
def arW : AnalyzeResult := ⟨"kw", some ⟨"p123", "cafe", 5⟩⟩

/-! ## Helper lemmas -/

/-- If the OLS slope is zero — because the cross moment vanishes or the
rank column is degenerate — the coefficient of determination is zero. -/
theorem fitQuality_eq_zero_of_slope_eq_zero (xs ys : List ℚ)
    (h : olsSlope xs ys = 0) : fitQuality xs ys = 0 := by
  rcases div_eq_zero_iff.mp h with h1 | h2
  · simp [fitQuality, h1]
  · simp [fitQuality, h2]

/-- One calibration attempt preserves the strict-negative-slope property of
calibrated entries. -/
theorem calibrate_preserves_neg (s : ParameterStore) (kw : String)
    (obs : List Observation)
    (ih : ∀ k, (s k).status = ParamStatus.CALIBRATED → (s k).index2_slope < 0) :
    ∀ k, ((calibrateKeyword s kw obs) k).status = ParamStatus.CALIBRATED →
      ((calibrateKeyword s kw obs) k).index2_slope < 0 := by
  intro k
  unfold calibrateKeyword
  by_cases hlen : obs.length < MIN_SAMPLES
  · rw [if_pos hlen]; exact ih k
  · rw [if_neg hlen]
    by_cases hrej : 0 < olsSlope (ranksOf obs) (i2sOf obs) ∨
        fitQuality (ranksOf obs) (i2sOf obs) < QUALITY_FLOOR
    · rw [if_pos hrej]; exact ih k
    · rw [if_neg hrej]
      push_neg at hrej
      obtain ⟨hsl, hq⟩ := hrej
      unfold ParameterStore.put
      by_cases hk : k = kw
      · rw [if_pos hk]
        intro _
        rcases lt_or_eq_of_le hsl with hlt | heq
        · exact hlt
        · exfalso
          have hq0 := fitQuality_eq_zero_of_slope_eq_zero _ _ heq
          rw [hq0] at hq
          norm_num [QUALITY_FLOOR] at hq
      · rw [if_neg hk]; exact ih k

/-- The staleness transition preserves the strict-negative-slope property
of calibrated entries. -/
theorem stale_preserves_neg (s : ParameterStore) (kw : String)
    (ih : ∀ k, (s k).status = ParamStatus.CALIBRATED → (s k).index2_slope < 0) :
    ∀ k, ((markStale s kw) k).status = ParamStatus.CALIBRATED →
      ((markStale s kw) k).index2_slope < 0 := by
  intro k
  unfold markStale
  by_cases hc : (s kw).status = ParamStatus.CALIBRATED
  · rw [if_pos hc]
    unfold ParameterStore.put
    by_cases hk : k = kw
    · rw [if_pos hk]; intro h; simp at h
    · rw [if_neg hk]; exact ih k
  · rw [if_neg hc]; exact ih k

/-- Every reachable parameter store gives each calibrated keyword a
strictly negative index2 slope (a zero slope cannot pass the quality
floor, so acceptance forces strictness). -/
theorem calibrated_slope_neg {s : ParameterStore} (hr : Reachable s) :
    ∀ k, (s k).status = ParamStatus.CALIBRATED → (s k).index2_slope < 0 := by
  induction hr with
  | init => intro k h; simp [initialStore] at h
  | calibrate s kw obs _ ih => exact calibrate_preserves_neg s kw obs ih
  | stale s kw _ ih => exact stale_preserves_neg s kw ih

/-! ## Claim theorems -/

/-- Claim C2: in every reachable parameter-store state, a keyword whose
parameters have status `CALIBRATED` has `index2_slope ≤ 0`; and any
calibration fit with a positive slope or a fit quality below the floor is
rejected leaving the stored state completely unchanged. -/
theorem calibration_slope_invariant :
    (∀ s, Reachable s → ∀ k, (s k).status = ParamStatus.CALIBRATED →
      (s k).index2_slope ≤ 0) ∧
    (∀ s kw obs, MIN_SAMPLES ≤ obs.length →
      (0 < olsSlope (ranksOf obs) (i2sOf obs) ∨
        fitQuality (ranksOf obs) (i2sOf obs) < QUALITY_FLOOR) →
      calibrateKeyword s kw obs = s) := by
  constructor
  · intro s hr k hk
    exact le_of_lt (calibrated_slope_neg hr k hk)
  · intro s kw obs hlen hrej
    unfold calibrateKeyword
    rw [if_neg (by omega), if_pos hrej]

/-- Calibrating the empty store from `obsGood` yields the expected
calibrated parameters (slope −1/100, intercept 3/5, perfect fit). -/
theorem calibrateKeyword_obsGood :
    calibrateKeyword initialStore "kw" obsGood "kw" =
      { index1_constant := 37/100, index2_slope := -1/100,
        index2_intercept := 3/5, sample_count := 5, fit_quality := 1,
        status := ParamStatus.CALIBRATED } := by
  norm_num [calibrateKeyword, ParameterStore.put, initialStore, obsGood,
    ranksOf, i2sOf, olsSlope, olsIntercept, fitQuality, crossDev, sqDev,
    mean, MIN_SAMPLES, QUALITY_FLOOR]

/-- The fitted slope of `obsBad` is the positive 1/100. -/
theorem olsSlope_obsBad : olsSlope (ranksOf obsBad) (i2sOf obsBad) = 1/100 := by
  norm_num [obsBad, ranksOf, i2sOf, olsSlope, crossDev, sqDev, mean]

/-- Witness for claim C2: calibrating from `obsGood` yields a calibrated
entry with non-positive slope, and the positive-slope input `obsBad` is
rejected with the store unchanged. -/
theorem calibration_slope_invariant_witness :
    ((calibrateKeyword initialStore "kw" obsGood) "kw").index2_slope ≤ 0 ∧
    calibrateKeyword initialStore "kw" obsBad = initialStore :=
  ⟨calibration_slope_invariant.1 _
      (Reachable.calibrate initialStore "kw" obsGood Reachable.init) "kw"
      (by rw [calibrateKeyword_obsGood]),
   calibration_slope_invariant.2 initialStore "kw" obsBad (by decide)
      (Or.inl (by rw [olsSlope_obsBad]; norm_num))⟩

/-- Claim C7: for every calibrated keyword of a reachable parameter store
and every valid target rank, the inverse simulation succeeds and
re-deriving a rank from the returned target index2 through the same linear
relation, `rank = (target_index2 − intercept) / slope`, gives back exactly
the requested target rank (exact over ℚ, hence within any floating
tolerance; calibration acceptance forces a nonzero slope, since a zero
slope has zero fit quality). -/
theorem inverse_roundtrip (s : ParameterStore) (hr : Reachable s)
    (kw : String) (hc : (s kw).status = ParamStatus.CALIBRATED)
    (g : GlobalIndex3Model) (lo hi i1 i2 : ℚ) (req : TargetRankRequest)
    (h1 : 1 ≤ req.target_rank) (h2 : req.target_rank < req.current_rank) :
    ∃ resp, inverseSimulate (s kw) g lo hi i1 i2 req = Except.ok resp ∧
      (resp.n2_change.target - (s kw).index2_intercept) / (s kw).index2_slope
        = (req.target_rank : ℚ) := by
  have hne : (s kw).index2_slope ≠ 0 := ne_of_lt (calibrated_slope_neg hr kw hc)
  unfold inverseSimulate
  rw [if_neg (by omega)]
  refine ⟨_, rfl, ?_⟩
  show ((s kw).index2_intercept + (s kw).index2_slope * (req.target_rank : ℚ)
      - (s kw).index2_intercept) / (s kw).index2_slope = (req.target_rank : ℚ)
  rw [add_sub_cancel_left, mul_div_cancel_left₀ _ hne]

/-- Witness for claim C7: the keyword calibrated from `obsGood` (slope
−1/100), asked for target rank 2 from current rank 5, round-trips. -/
theorem inverse_roundtrip_witness :
    ∃ resp, inverseSimulate ((calibrateKeyword initialStore "kw" obsGood) "kw")
        gW 0 1 (37/100) (54/100) ⟨"kw", "cafe", 5, 2⟩ = Except.ok resp ∧
      (resp.n2_change.target
          - ((calibrateKeyword initialStore "kw" obsGood) "kw").index2_intercept)
        / ((calibrateKeyword initialStore "kw" obsGood) "kw").index2_slope
        = ((2 : ℤ) : ℚ) :=
  inverse_roundtrip _ (Reachable.calibrate initialStore "kw" obsGood Reachable.init)
    "kw" (by rw [calibrateKeyword_obsGood]) gW 0 1 (37/100) (54/100)
    ⟨"kw", "cafe", 5, 2⟩ (by decide) (by decide)

/-- Claim C1: the inverse (target-rank) simulation rejects every request
with `target_rank ≥ current_rank` or `target_rank < 1` as `InvalidTarget`
before any computation, and the frontend handler issues no request at all
when the chosen target rank is not strictly better than the current
rank. -/
theorem invalid_target_rejected :
    (∀ kp g lo hi i1 i2 (req : TargetRankRequest),
      req.current_rank ≤ req.target_rank ∨ req.target_rank < 1 →
      inverseSimulate kp g lo hi i1 i2 req = Except.error SimError.InvalidTarget) ∧
    (∀ (place : SearchResult) (ar : AnalyzeResult) (mp : AnalyzePlace) (t : ℤ),
      ar.my_place = some mp → mp.rank ≤ t →
      handleTargetRankSimulate (some place) (some ar) t = none) := by
  constructor
  · intro kp g lo hi i1 i2 req h
    unfold inverseSimulate
    rw [if_pos h]
  · intro place ar mp t hmp hle
    simp only [handleTargetRankSimulate]
    rw [hmp]
    by_cases hk : ar.keyword = ""
    · rw [if_pos hk]
    · rw [if_neg hk]
      exact if_pos hle

/-- Witness for claim C1, at the concrete scenario of the spec: current
rank 5, target rank 10 is `InvalidTarget` in the simulator and issues no
frontend request. -/
theorem invalid_target_rejected_witness :
    inverseSimulate (initialStore "kw") gW 0 1 0 0 ⟨"kw", "cafe", 5, 10⟩
        = Except.error SimError.InvalidTarget ∧
    handleTargetRankSimulate (some placeW) (some arW) 10 = none :=
  ⟨invalid_target_rejected.1 (initialStore "kw") gW 0 1 0 0 ⟨"kw", "cafe", 5, 10⟩
      (Or.inl (by decide)),
   invalid_target_rejected.2 placeW arW ⟨"p123", "cafe", 5⟩ 10 rfl (by decide)⟩

/-- Counterexample for claim C4: the repository's declared inverse
response, TS `TargetRankResponse`, has none of the flat field names the
claim lists — the current/target/delta values live in the nested
`n2_change`/`n3_change` records, the feasibility flag is `is_achievable`,
and the summary string is `message`. -/
theorem inverse_response_spec_fields_absent :
    "current_index2" ∉ targetRankResponseFieldNames ∧
    "target_index2" ∉ targetRankResponseFieldNames ∧
    "index2_delta" ∉ targetRankResponseFieldNames ∧
    "current_index3" ∉ targetRankResponseFieldNames ∧
    "target_index3" ∉ targetRankResponseFieldNames ∧
    "index3_delta" ∉ targetRankResponseFieldNames ∧
    "achievable" ∉ targetRankResponseFieldNames ∧
    "summary" ∉ targetRankResponseFieldNames := by
  decide

/-- Claim C4 (amended): every accepted inverse simulation request yields a
response carrying current/target/delta for both index2 and index3 in the
nested `n2_change` and `n3_change` records (with each `change` equal to
`target − current`), a boolean `is_achievable` flag, and a `message`
summary string built from the numeric deltas; the response's declared
field list is exactly that of the TS interface. -/
theorem inverse_response_fields (kp : KeywordParameters)
    (g : GlobalIndex3Model) (lo hi i1 i2 : ℚ) (req : TargetRankRequest)
    (h1 : 1 ≤ req.target_rank) (h2 : req.target_rank < req.current_rank) :
    ∃ resp, inverseSimulate kp g lo hi i1 i2 req = Except.ok resp ∧
      resp.n2_change.current = i2 ∧
      resp.n2_change.change = resp.n2_change.target - resp.n2_change.current ∧
      resp.n3_change.current = g.eval i1 i2 ∧
      resp.n3_change.target = g.eval i1 resp.n2_change.target ∧
      resp.n3_change.change = resp.n3_change.target - resp.n3_change.current ∧
      (resp.is_achievable = true ↔
        lo ≤ resp.n2_change.target ∧ resp.n2_change.target ≤ hi) ∧
      resp.message = mkSummary resp.n2_change.change resp.n3_change.change
        resp.is_achievable ∧
      targetRankResponseFieldNames =
        ["keyword", "place_name", "current_rank", "target_rank", "n2_change",
         "n3_change", "message", "is_achievable", "data_source"] := by
  unfold inverseSimulate
  rw [if_neg (by omega)]
  exact ⟨_, rfl, rfl, rfl, rfl, rfl, rfl, by simp, rfl, rfl⟩

/-- Witness for claim C4 at a concrete accepted request (current rank 5,
target rank 2). -/
theorem inverse_response_fields_witness :
    ∃ resp, inverseSimulate (initialStore "kw") gW 0 1 (37/100) (54/100)
        ⟨"kw", "cafe", 5, 2⟩ = Except.ok resp ∧
      resp.n2_change.current = 54/100 ∧
      resp.n2_change.change = resp.n2_change.target - resp.n2_change.current ∧
      resp.n3_change.current = gW.eval (37/100) (54/100) ∧
      resp.n3_change.target = gW.eval (37/100) resp.n2_change.target ∧
      resp.n3_change.change = resp.n3_change.target - resp.n3_change.current ∧
      (resp.is_achievable = true ↔
        0 ≤ resp.n2_change.target ∧ resp.n2_change.target ≤ 1) ∧
      resp.message = mkSummary resp.n2_change.change resp.n3_change.change
        resp.is_achievable ∧
      targetRankResponseFieldNames =
        ["keyword", "place_name", "current_rank", "target_rank", "n2_change",
         "n3_change", "message", "is_achievable", "data_source"] :=
  inverse_response_fields (initialStore "kw") gW 0 1 (37/100) (54/100)
    ⟨"kw", "cafe", 5, 2⟩ (by decide) (by decide)

/-- Counterexample for claim C3: the repository's declared forward
response, TS `SimulateResponse`, has neither a `per_feature_effect` field
(the per-feature effects live in `effects`) nor required
`current_index3`/`predicted_index3` fields (the required score fields are
the index2 values `current_score`/`predicted_score`; the index3 values are
the optional `current_n3`/`predicted_n3`). -/
theorem forward_response_spec_fields_absent :
    "per_feature_effect" ∉
      simulateResponseRequiredFields ++ simulateResponseOptionalFields ∧
    "current_index3" ∉
      simulateResponseRequiredFields ++ simulateResponseOptionalFields ∧
    "predicted_index3" ∉
      simulateResponseRequiredFields ++ simulateResponseOptionalFields := by
  decide

/-- Summing a mapped filter equals summing with the filtered-out elements
contributing zero. -/
theorem sum_filter_map_eq {α : Type} (l : List α) (p : α → Bool)
    (f : α → ℚ) :
    ((l.filter p).map f).sum = (l.map (fun a => if p a then f a else 0)).sum := by
  induction l with
  | nil => rfl
  | cons a t ih => by_cases h : p a <;> simp [h, ih]

/-- A concrete feature-significance table: `inflow` significant with
coefficient 2; the review features not significant. -/
def sigW : Feature → FeatureSignificance :=
  fun f =>
    match f with
    | .inflow => ⟨9/10, some (1/100), true, 2, 40⟩
    | .blog_review => ⟨1/2, none, false, 5, 3⟩
    | .visit_review => ⟨0, some (3/10), false, 1, 40⟩

/-- Concrete proposed feature deltas. -/
def deltasW : Feature → ℚ :=
  fun f =>
    match f with
    | .inflow => 3
    | .blog_review => 7
    | .visit_review => 0

/-- Claim C3 (amended): the forward simulation response carries the
per-feature effects in its `effects` map — each significant feature's
entry holding the proposed delta and `delta · coefficient`, each
non-significant feature absent — and `total_effect` is exactly the sum of
the per-feature effects exposed in the response (the significant features'
`delta · coefficient` contributions); the required predicted value is the
index2 score `predicted_score = current_score + total_effect`, and the
declared field lists of the TS interface are the six required fields and
three optional N3 fields. -/
theorem forward_response_shape (sig : Feature → FeatureSignificance)
    (deltas : Feature → ℚ) (cn2 : ℚ) (cr : ℤ) (g : GlobalIndex3Model)
    (i1 : ℚ) (others : List (ℤ × ℚ)) :
    (forwardSimulate sig deltas cn2 cr g i1 others).total_effect =
      (featureList.map (fun f =>
        (((forwardSimulate sig deltas cn2 cr g i1 others).effects f).map
          SimulateEffect.effect).getD 0)).sum ∧
    (forwardSimulate sig deltas cn2 cr g i1 others).predicted_score =
      (forwardSimulate sig deltas cn2 cr g i1 others).current_score +
        (forwardSimulate sig deltas cn2 cr g i1 others).total_effect ∧
    (∀ f, (sig f).is_significant = true →
      (forwardSimulate sig deltas cn2 cr g i1 others).effects f =
        some ⟨deltas f, deltas f * (sig f).coefficient⟩) ∧
    (∀ f, (sig f).is_significant = false →
      (forwardSimulate sig deltas cn2 cr g i1 others).effects f = none) ∧
    (forwardSimulate sig deltas cn2 cr g i1 others).predicted_n3 =
      some (g.eval i1
        ((forwardSimulate sig deltas cn2 cr g i1 others).predicted_score)) ∧
    simulateResponseRequiredFields =
      ["current_score", "current_rank", "effects", "total_effect",
       "predicted_score", "predicted_rank"] ∧
    simulateResponseOptionalFields = ["current_n3", "predicted_n3", "n3_change"] := by
  refine ⟨?_, rfl, ?_, ?_, rfl, rfl, rfl⟩
  · show ((featureList.filter (fun f => (sig f).is_significant)).map
        (fun f => deltas f * (sig f).coefficient)).sum = _
    rw [sum_filter_map_eq]
    congr 1
    apply List.map_congr_left
    intro f _
    by_cases h : (sig f).is_significant <;> simp [forwardSimulate, h]
  · intro f h
    simp [forwardSimulate, h]
  · intro f h
    simp [forwardSimulate, h]

/-- Witness for claim C3: with `sigW`/`deltasW`, the significant `inflow`
feature appears in `effects` with effect 3 · 2 and the non-significant
`blog_review` feature is absent. -/
theorem forward_response_shape_witness :
    (forwardSimulate sigW deltasW (1/2) 5 gW (37/100) []).effects
        Feature.inflow = some ⟨3, 3 * 2⟩ ∧
    (forwardSimulate sigW deltasW (1/2) 5 gW (37/100) []).effects
        Feature.blog_review = none :=
  ⟨(forward_response_shape sigW deltasW (1/2) 5 gW (37/100) []).2.2.1
      Feature.inflow rfl,
   (forward_response_shape sigW deltasW (1/2) 5 gW (37/100) []).2.2.2.1
      Feature.blog_review rfl⟩

/-- Counterexample for claim C5: the repository's declared correlation
result, TS `CorrelationResult`, types `p_value` as a plain `number` — not
`number | null` — so a below-minimum result with `p_value = null` is
outside the repository's declared response type. -/
theorem correlation_p_value_not_nullable :
    correlationResultTypeOf "p_value" = some TsType.number ∧
    correlationResultTypeOf "p_value" ≠ some (TsType.nullable TsType.number) := by
  decide

/-- Claim C5 (amended): a feature whose paired sample count is below
`MIN_CORR_SAMPLES` is analyzed as not significant — with the
feature-significance table of the spec recording no p-value — regardless
of the apparent correlation strength of the available samples, and in
general a feature is significant iff its p-value is below 0.05 and its
sample size reaches the minimum; the repository's declared client-side
`CorrelationResult` interface nevertheless types `p_value` as a
non-nullable `number`. -/
theorem correlation_min_sample_gate (n : ℕ) (r p coef : ℚ) :
    (n < MIN_CORR_SAMPLES →
      (analyzeFeature n r p coef).is_significant = false ∧
      (analyzeFeature n r p coef).p_value = none) ∧
    ((analyzeFeature n r p coef).is_significant = true ↔
      p < 1/20 ∧ MIN_CORR_SAMPLES ≤ n) ∧
    correlationResultTypeOf "p_value" = some TsType.number := by
  refine ⟨?_, ?_, by decide⟩
  · intro h
    simp [analyzeFeature, h]
  · by_cases h : n < MIN_CORR_SAMPLES
    · simp only [analyzeFeature, if_pos h, Bool.false_eq_true, false_iff,
        not_and]
      intro _
      omega
    · simp [analyzeFeature, h, decide_eq_true_iff]
      omega

/-- Witness for claim C5: three samples with an apparently very strong
correlation (r = 99/100, p = 1/1000) are still gated to not significant
with no recorded p-value. -/
theorem correlation_min_sample_gate_witness :
    (analyzeFeature 3 (99/100) (1/1000) 1).is_significant = false ∧
    (analyzeFeature 3 (99/100) (1/1000) 1).p_value = none :=
  (correlation_min_sample_gate 3 (99/100) (1/1000) 1).1 (by decide)

/-- Claim C6: resolving an activity-log entry's snapshot for a lag window
is idempotent — once the first resolution has populated the lag's
resolution fields, running the batch step again for the same lag leaves
the stored entry unchanged, whatever snapshot the second run carries. -/
theorem resolution_idempotent (e : ActivityLogEntry) (lag : Lag)
    (r1 : ℤ) (v1 : ℚ) (r2 : ℤ) (v2 : ℚ) :
    resolveLag (resolveLag e lag r1 v1) lag r2 v2 = resolveLag e lag r1 v1 := by
  cases lag with
  | d1 =>
    by_cases h : e.rank_after_1d.isSome
    · simp [resolveLag, h]
    · simp [resolveLag, h]
  | d7 =>
    by_cases h : e.rank_after_7d.isSome
    · simp [resolveLag, h]
    · simp [resolveLag, h]

/-- Claim C8: the displayed daily rank change is the previous day's rank
minus the most recent day's rank (positive exactly when the numeric rank
decreased, i.e. the position improved), and it is null whenever there are
fewer than two days of weekly data or either of the two most recent days
lacks a rank; the `SavedKeyword` variant agrees with the list variant. -/
theorem rank_change_correct (wd : List DailyData) :
    (∀ k : SavedKeyword, getRankChangeKeyword k = getRankChange k.weekly_data) ∧
    (wd.length < 2 → getRankChange wd = none) ∧
    (2 ≤ wd.length →
      ∀ today yesterday, wd.get? (wd.length - 1) = some today →
        wd.get? (wd.length - 2) = some yesterday →
        ((today.rank = none ∨ yesterday.rank = none) →
          getRankChange wd = none) ∧
        (∀ tr yr, today.rank = some tr → yesterday.rank = some yr →
          0 < tr → 0 < yr →
          getRankChange wd = some (yr - tr) ∧ (0 < yr - tr ↔ tr < yr))) := by
  have hkv : ∀ k : SavedKeyword,
      getRankChangeKeyword k = getRankChange k.weekly_data := fun _ => rfl
  refine ⟨hkv, ?_, ?_⟩
  · intro h
    unfold getRankChange
    rw [if_pos h]
  · intro h2 today yesterday ht hy
    have hlen : ¬ wd.length < 2 := by omega
    constructor
    · intro hnone
      simp only [getRankChange, hlen, if_false, ht, hy]
      rcases hnone with h | h
      · rw [h]
      · rw [h]
        cases today.rank <;> rfl
    · intro tr yr htr hyr htr0 hyr0
      have hne : ¬(tr = 0 ∨ yr = 0) := by
        push_neg
        exact ⟨ne_of_gt htr0, ne_of_gt hyr0⟩
      constructor
      · simp only [getRankChange, hlen, if_false, ht, hy, htr, hyr]
        rw [if_neg hne]
      · exact sub_pos

/-- A two-day weekly history: rank 5 yesterday, rank 3 today. -/
def wdW : List DailyData :=
  [⟨"10/01", some 5, 12, 3, none⟩, ⟨"10/02", some 3, 12, 3, none⟩]

/-- Witness for claim C8: with ranks 5 then 3 the change is +2, positive
because the rank number fell from 5 to 3. -/
theorem rank_change_correct_witness :
    getRankChange wdW = some (5 - 3) ∧ ((0:ℚ) < 5 - 3 ↔ (3:ℚ) < 5) :=
  ((rank_change_correct wdW).2.2 (by decide) ⟨"10/02", some 3, 12, 3, none⟩
    ⟨"10/01", some 5, 12, 3, none⟩ rfl rfl).2 3 5 rfl rfl (by norm_num)
    (by norm_num)

/-- Claim C9: an activity-log request is issued only when some checked
feature has a positive count; in the issued request every unchecked
feature contributes 0 and `visit_review_added` is always 0. -/
theorem activity_log_guard (sp : Option SearchResult)
    (ar : Option AnalyzeResult) (st : ActivityState)
    (req : ActivityLogRequest) (h : handleActivityLog sp ar st = some req) :
    ((st.blogChecked = true ∧ 0 < st.blogCount) ∨
     (st.saveChecked = true ∧ 0 < st.saveCount) ∨
     (st.inflowChecked = true ∧ 0 < st.inflowCount)) ∧
    (st.blogChecked = false → req.blog_review_added = 0) ∧
    (st.saveChecked = false → req.save_added = 0) ∧
    (st.inflowChecked = false → req.inflow_added = 0) ∧
    req.visit_review_added = 0 := by
  match sp, ar with
  | none, _ => simp [handleActivityLog] at h
  | some place, none => simp [handleActivityLog] at h
  | some place, some a =>
    simp only [handleActivityLog] at h
    by_cases hk : a.keyword = ""
    · rw [if_pos hk] at h
      simp at h
    · rw [if_neg hk] at h
      by_cases hact : ((st.blogChecked && decide (0 < st.blogCount)) ||
          (st.saveChecked && decide (0 < st.saveCount)) ||
          (st.inflowChecked && decide (0 < st.inflowCount))) = true
      · rw [if_pos hact] at h
        injection h with h
        subst h
        refine ⟨?_, ?_, ?_, ?_, rfl⟩
        · simp only [Bool.or_eq_true, Bool.and_eq_true,
            decide_eq_true_iff] at hact
          tauto
        · intro hb; simp [hb]
        · intro hs; simp [hs]
        · intro hi; simp [hi]
      · rw [if_neg hact] at h
        simp at h

/-- A concrete activity-entry state: blog reviews checked with count 4,
saves unchecked (count 9 left in the field), traffic unchecked. -/
def stW : ActivityState := ⟨true, 4, false, 9, false, 0⟩

/-- The request `handleActivityLog` issues for `stW`: the unchecked save
count is zeroed and `visit_review_added` is 0. -/
def reqW : ActivityLogRequest := ⟨"kw", "p123", "cafe", 4, 0, 0, 0⟩

/-- Witness for claim C9 at the concrete state `stW`. -/
theorem activity_log_guard_witness :
    ((stW.blogChecked = true ∧ 0 < stW.blogCount) ∨
     (stW.saveChecked = true ∧ 0 < stW.saveCount) ∨
     (stW.inflowChecked = true ∧ 0 < stW.inflowCount)) ∧
    (stW.blogChecked = false → reqW.blog_review_added = 0) ∧
    (stW.saveChecked = false → reqW.save_added = 0) ∧
    (stW.inflowChecked = false → reqW.inflow_added = 0) ∧
    reqW.visit_review_added = 0 :=
  activity_log_guard (some placeW) (some arW) stW reqW (by decide)

/-- Claim C10: after an analysis the persisted recent-searches list holds
at most 10 entries, the fresh search first, no surviving older entry with
the fresh search's (placeId, keyword) pair, and the remaining entries in
their previous (newest-first) order. -/
theorem recent_searches_invariant (s : RecentSearch)
    (saved : List RecentSearch) :
    (updateRecentSearches s saved).length ≤ 10 ∧
    (updateRecentSearches s saved).head? = some s ∧
    (∀ t, t ∈ (updateRecentSearches s saved).drop 1 →
      ¬(t.placeId = s.placeId ∧ t.keyword = s.keyword)) ∧
    List.Sublist ((updateRecentSearches s saved).drop 1) saved := by
  refine ⟨?_, rfl, ?_, ?_⟩
  · rw [updateRecentSearches, List.length_take]
    exact min_le_left _ _
  · intro t htmem
    have hmem : t ∈ saved.filter
        (fun u => !(decide (u.placeId = s.placeId) &&
          decide (u.keyword = s.keyword))) := by
      have : (updateRecentSearches s saved).drop 1 =
          (saved.filter (fun u => !(decide (u.placeId = s.placeId) &&
            decide (u.keyword = s.keyword)))).take 9 := rfl
      rw [this] at htmem
      exact (List.take_sublist _ _).mem htmem
    have hpred := (List.mem_filter.mp hmem).2
    simp only [Bool.not_eq_true', Bool.and_eq_false_iff,
      decide_eq_false_iff_not] at hpred
    tauto
  · have : (updateRecentSearches s saved).drop 1 =
        (saved.filter (fun u => !(decide (u.placeId = s.placeId) &&
          decide (u.keyword = s.keyword)))).take 9 := rfl
    rw [this]
    exact (List.take_sublist _ _).trans (List.filter_sublist _)

/-- The fresh search record used by the C10 witness. -/
def searchNew : RecentSearch := ⟨"p123", "cafe", "cafe", "kw", none, "10/02"⟩

/-- An older record with the same (placeId, keyword) pair as `searchNew`. -/
def searchDup : RecentSearch := ⟨"p123", "cafe", "cafe", "kw", none, "10/01"⟩

/-- An older record with a different keyword. -/
def searchOther : RecentSearch := ⟨"p999", "bar", "bar", "kw2", none, "10/01"⟩

/-- Witness for claim C10 at a saved list holding a duplicate of the fresh
pair and one unrelated entry. -/
theorem recent_searches_invariant_witness :
    (updateRecentSearches searchNew [searchDup, searchOther]).length ≤ 10 ∧
    (updateRecentSearches searchNew [searchDup, searchOther]).head? =
      some searchNew ∧
    ¬(searchOther.placeId = searchNew.placeId ∧
      searchOther.keyword = searchNew.keyword) :=
  ⟨(recent_searches_invariant searchNew [searchDup, searchOther]).1,
   (recent_searches_invariant searchNew [searchDup, searchOther]).2.1,
   (recent_searches_invariant searchNew [searchDup, searchOther]).2.2.1
      searchOther (by decide)⟩

end Place








